import Mathlib

/-!
Verification of the HPU campus dashboard data generators
(`src/campus_dashboard.py`) against their natural-language specification.

The repository's spec describes two dashboard scripts; only
`campus_dashboard.py` is available here.  Definitions below that embed code
of that file are translated directly from it.  Features the spec attributes
to the daily-series generator that are absent from `campus_dashboard.py`
(the `season` field, `sunshine_hours`, the solar-from-sunshine derivation,
the temperature/AQI drifts, the parameterized and validated entry points)
are modelled from the spec and carry a doc comment saying so.

Floats are embedded as `ℚ` where the code is pure arithmetic, and as `ℝ`
where the code calls `np.sin`.  Calls to `random.uniform(lo, hi)` are
embedded by passing the drawn value (or a `[0,1]` parameter `t` mapped
through `lo + (hi - lo) * t`) as an explicit argument.
-/

namespace Campus

/-- Static building catalog entry, from the `buildings` dict of
`generate_campus_data` (`campus_dashboard.py:214`). -/
structure Building where
  name : String
  area : ℚ
  floors : ℕ
  students : ℕ
  base_energy : ℚ
  peak_factor : ℚ
deriving DecidableEq, Repr

/-- The six-building catalog hard-coded in `generate_campus_data`,
in Python dict insertion order. -/
def buildings : List Building :=
  [ ⟨"Academic Block", 13500, 4, 2650, 5500, 13/10⟩,
    ⟨"Hostel Block A", 1800, 3, 400, 1800, 14/10⟩,
    ⟨"Hostel Block B", 1800, 3, 400, 1800, 14/10⟩,
    ⟨"Hostel Block C", 1800, 3, 400, 1800, 14/10⟩,
    ⟨"Support Complex", 4075, 3, 700, 2500, 15/10⟩,
    ⟨"Dining Hall", 600, 1, 400, 800, 18/10⟩ ]

/-- The daytime condition of the demand `if` chain:
`8 <= hour <= 18` (`campus_dashboard.py:262`). -/
def daytimeCond (hour : ℕ) : Bool := 8 ≤ hour ∧ hour ≤ 18

/-- The evening condition of the demand `elif` branch:
`18 <= hour <= 23` (`campus_dashboard.py:264`). -/
def eveningCond (hour : ℕ) : Bool := 18 ≤ hour ∧ hour ≤ 23

/-- Daypart multiplier applied to a building's `base_energy`, translated
from the `if 8 <= hour <= 18 / elif 18 <= hour <= 23 / else` chain of
`generate_campus_data` (`campus_dashboard.py:262-267`).  The `elif` means
an hour matching the first condition never reaches the second. -/
def demandMult (hour : ℕ) (peak_factor : ℚ) : ℚ :=
  if 8 ≤ hour ∧ hour ≤ 18 then 8/10
  else if 18 ≤ hour ∧ hour ≤ 23 then peak_factor
  else 3/10

/-- One building's demand at a given hour: `base * multiplier`, then
`*= random.uniform(0.85, 1.15)` embedded as the explicit draw `j`
(`campus_dashboard.py:263-270`). -/
noncomputable def buildingDemand (b : Building) (hour : ℕ) (j : ℝ) : ℝ :=
  ((b.base_energy * demandMult hour b.peak_factor : ℚ) : ℝ) * j

/-- The `f"{building}_kw"` fields produced by the demand loop, one pair per
catalog entry in order (`campus_dashboard.py:260-271`); `jit i` is the
`random.uniform(0.85, 1.15)` draw of the i-th building. -/
noncomputable def perBuildingDemands (cat : List Building) (hour : ℕ)
    (jit : ℕ → ℝ) : List (String × ℝ) :=
  cat.enum.map (fun p => (p.2.name, buildingDemand p.2 hour (jit p.1)))

/-- Solar generation for one hour: `capacity * sin((h-6)/12*π) * uniform(0.9,1.1)`
when `6 <= hour <= 18`, else `0` (`campus_dashboard.py:252-256`). -/
noncomputable def solarKW (capacity : ℝ) (hour : ℕ) (sj : ℝ) : ℝ :=
  if 6 ≤ hour ∧ hour ≤ 18 then
    capacity * Real.sin (((hour : ℝ) - 6) / 12 * Real.pi) * sj
  else 0

/-- Battery state of charge:
`50 + 30*sin((hour-6)/12*π) if hour <= 18 else max(20, 80-(hour-18)*10)`
(`campus_dashboard.py:276`). -/
noncomputable def batterySoc (hour : ℕ) : ℝ :=
  if hour ≤ 18 then 50 + 30 * Real.sin (((hour : ℝ) - 6) / 12 * Real.pi)
  else max 20 (80 - ((hour : ℝ) - 18) * 10)

/-- One row of the hourly table built by `generate_campus_data`
(`campus_dashboard.py:248-278`). -/
structure HourlyRecord where
  hour : ℕ
  solar_kw : ℝ
  perBuilding : List (String × ℝ)
  total_demand_kw : ℝ
  grid_import_kw : ℝ
  battery_soc : ℝ

/-- One iteration of the `for hour in hours` loop of `generate_campus_data`:
solar, the per-building demands accumulated into `total_demand`, then
`grid_import_kw = max(0, total_demand - solar_kw)` and the battery proxy
(`campus_dashboard.py:248-278`). -/
noncomputable def genHourRecord (cat : List Building) (capacity : ℝ)
    (hour : ℕ) (sj : ℝ) (jit : ℕ → ℝ) : HourlyRecord :=
  let sol := solarKW capacity hour sj
  let dems := perBuildingDemands cat hour jit
  let total := dems.foldl (fun acc p => acc + p.2) 0
  { hour := hour
    solar_kw := sol
    perBuilding := dems
    total_demand_kw := total
    grid_import_kw := max 0 (total - sol)
    battery_soc := batterySoc hour }

/-- The 24-row hourly table of `generate_campus_data`
(`campus_dashboard.py:242-280`); `sj h` and `jit h i` are the solar and
per-building uniform draws of hour `h`. -/
noncomputable def generate_campus_data_hourly (cat : List Building)
    (capacity : ℝ) (sj : ℕ → ℝ) (jit : ℕ → ℕ → ℝ) : List HourlyRecord :=
  (List.range 24).map (fun h => genHourRecord cat capacity h (sj h) (jit h))

/-- The AQI category chain of `simulate_sensor_data`:
`'Good' if pm25 < 50 else 'Moderate' if pm25 < 100 else 'Poor'`
(`campus_dashboard.py:122`). -/
def aqiCategory (pm25 : ℚ) : String :=
  if pm25 < 50 then "Good" else if pm25 < 100 then "Moderate" else "Poor"

/-- Round-half-to-even on ℚ, embedding Python's `round` tie behavior. -/
def roundHalfEven (q : ℚ) : ℤ :=
  let f := ⌊q⌋
  let r := q - f
  if r < 1/2 then f
  else if 1/2 < r then f + 1
  else if f % 2 = 0 then f else f + 1

/-- Python's `round(x, 1)`. -/
def pyRound1 (q : ℚ) : ℚ := (roundHalfEven (q * 10) : ℚ) / 10

/-- The `air_quality` sub-record of a sensor snapshot: the numeric fields
are rounded to one decimal, while `aqi_category` is computed from the raw
sampled `pm25` (`campus_dashboard.py:118-123`). -/
structure AirQualityReading where
  pm25 : ℚ
  pm10 : ℚ
  co2 : ℚ
  aqi_category : String
deriving DecidableEq, Repr

/-- Builder of the `air_quality` sub-record from the sampled values
(`campus_dashboard.py:85-89` and `118-123`). -/
def simulate_sensor_data_air_quality (pm25 pm10 co2 : ℚ) : AirQualityReading :=
  { pm25 := pyRound1 pm25
    pm10 := pyRound1 pm10
    co2 := pyRound1 co2
    aqi_category := aqiCategory pm25 }

/-- Calendar date, as carried by Python's `datetime`. -/
structure Date where
  year : ℕ
  month : ℕ
  day : ℕ
deriving DecidableEq, Repr

/-- Gregorian leap-year rule, as implemented by Python's `datetime`. -/
def isLeap (y : ℕ) : Bool := (y % 4 == 0 && y % 100 != 0) || y % 400 == 0

/-- Number of days in a month of the Gregorian calendar. -/
def daysInMonth (y m : ℕ) : ℕ :=
  if m = 2 then (if isLeap y then 29 else 28)
  else if m = 4 ∨ m = 6 ∨ m = 9 ∨ m = 11 then 30
  else 31

/-- Successor day in the Gregorian calendar. -/
def nextDay (d : Date) : Date :=
  if d.day < daysInMonth d.year d.month then ⟨d.year, d.month, d.day + 1⟩
  else if d.month < 12 then ⟨d.year, d.month + 1, 1⟩
  else ⟨d.year + 1, 1, 1⟩

/-- `start_date + timedelta(days=i)` (`campus_dashboard.py:151`). -/
def addDays (d : Date) : ℕ → Date
  | 0 => d
  | n + 1 => nextDay (addDays d n)

/-- The four seasons of the spec's fixed partition of months. -/
inductive Season where
  | Winter
  | Summer
  | Monsoon
  | Autumn
deriving DecidableEq, Repr

/-- Modelled from the spec: the `season` field of a DailyRecord is absent
from `campus_dashboard.py`; the spec fixes it as the partition
{12,1,2}→Winter, {3,4,5}→Summer, {6,7,8,9}→Monsoon, else→Autumn, which is
also the month grouping used by the seasonal branches of
`generate_campus_data` (`campus_dashboard.py:292-304`). -/
def seasonOfMonth (m : ℕ) : Season :=
  if m = 12 ∨ m = 1 ∨ m = 2 then .Winter
  else if 3 ≤ m ∧ m ≤ 5 then .Summer
  else if 6 ≤ m ∧ m ≤ 9 then .Monsoon
  else .Autumn

/-- `random.uniform(lo, hi)` with its underlying `[0,1]` draw `t` explicit. -/
def uniform (lo hi t : ℚ) : ℚ := lo + (hi - lo) * t

/-- Clamp of a metric to its physical domain `[lo, hi]`. -/
def clampQ (lo hi x : ℚ) : ℚ := max lo (min hi x)

/-- Modelled from the spec: per-season base values for temperature,
rainfall, sunshine hours, humidity and AQI.  The temperature and AQI bases
are the midpoints and `aqi_base` values of the seasonal branches of
`generate_daily_historical_data` (`campus_dashboard.py:171-192`); the
rainfall, sunshine and humidity bases have no counterpart in
`campus_dashboard.py` and are representative constants. -/
structure SeasonBase where
  temp : ℚ
  rain : ℚ
  sun : ℚ
  hum : ℚ
  aqi : ℚ
deriving DecidableEq, Repr

/-- Modelled from the spec: the fixed per-season base-value table of the
SeasonalDailySeriesGenerator. -/
def seasonBase : Season → SeasonBase
  | .Winter => ⟨5, 2, 6, 60, 80⟩
  | .Summer => ⟨16, 1, 10, 45, 55⟩
  | .Monsoon => ⟨21, 8, 4, 85, 40⟩
  | .Autumn => ⟨11, 1, 7, 55, 55⟩

/-- Modelled from the spec: the constant `c` of the cross-metric dependency
`solar_energy_kwh = sunshine_hours * c * uniform(0.8, 1.3)`; its value is
not fixed by the spec. -/
def solarPerSunHour : ℚ := 100

/-- Modelled from the spec: the additive per-year AQI drift; its magnitude
is not fixed by the spec. -/
def aqiDriftPerYear : ℚ := 1

/-- Modelled from the spec: the multi-year temperature drift slope
`k ≈ 0.02`. -/
def tempDriftK : ℚ := 2/100

/-- The `[0,1]` uniform draws consumed by one DailyRecord, one per sampled
metric. -/
structure Draw where
  t : ℚ
  r : ℚ
  s : ℚ
  h : ℚ
  a : ℚ
  j : ℚ
deriving DecidableEq, Repr

/-- All draws of a `Draw` lie in `[0,1]`. -/
def Draw.Valid (w : Draw) : Prop :=
  0 ≤ w.t ∧ w.t ≤ 1 ∧ 0 ≤ w.r ∧ w.r ≤ 1 ∧ 0 ≤ w.s ∧ w.s ≤ 1 ∧
  0 ≤ w.h ∧ w.h ≤ 1 ∧ 0 ≤ w.a ∧ w.a ≤ 1 ∧ 0 ≤ w.j ∧ w.j ≤ 1

/-- One row of the daily series, with the fields the spec's data model
gives a DailyRecord. -/
structure DailyRecord where
  date : Date
  year : ℕ
  month : ℕ
  day : ℕ
  season : Season
  temperature_c : ℚ
  rainfall_mm : ℚ
  sunshine_hours : ℚ
  humidity_percent : ℚ
  air_quality_pm25 : ℚ
  solar_energy_kwh : ℚ
deriving DecidableEq, Repr

/-- Modelled from the spec: one DailyRecord of the
SeasonalDailySeriesGenerator (§4.1), absent from `campus_dashboard.py`
in this parameterized form.  Season from the month partition; per-season
bases; temperature scaled by the drift factor `1 + (year - start_year) * k`;
AQI base shifted by the additive per-year drift, jittered and clamped to
`[25, 250]`; sunshine clamped to `[0, 11]`; humidity clamped to `[20, 100]`;
rainfall clamped to `≥ 0`; solar energy derived from the sampled sunshine
hours as `sunshine_hours * c * uniform(0.8, 1.3)`, not sampled
independently. -/
def mkDailyRecord (startYear : ℕ) (d : Date) (w : Draw) : DailyRecord :=
  let season := seasonOfMonth d.month
  let b := seasonBase season
  let dy : ℚ := (d.year : ℚ) - (startYear : ℚ)
  let temp := (b.temp + uniform (-3) 3 w.t) * (1 + dy * tempDriftK)
  let rain := max 0 (b.rain * uniform (1/2) (3/2) w.r)
  let sun := clampQ 0 11 (b.sun * uniform (7/10) (13/10) w.s)
  let hum := clampQ 20 100 (b.hum * uniform (8/10) (12/10) w.h)
  let aqi := clampQ 25 250 ((b.aqi + dy * aqiDriftPerYear) * uniform (7/10) (13/10) w.a)
  let solar := sun * solarPerSunHour * uniform (8/10) (13/10) w.j
  { date := d
    year := d.year
    month := d.month
    day := d.day
    season := season
    temperature_c := temp
    rainfall_mm := rain
    sunshine_hours := sun
    humidity_percent := hum
    air_quality_pm25 := aqi
    solar_energy_kwh := solar }

/-- Modelled from the spec: the SeasonalDailySeriesGenerator contract —
given a start date and a day count, one DailyRecord per consecutive
calendar day in order (§4.1); `campus_dashboard.py`'s
`generate_daily_historical_data` only implements the hard-coded instance.
`ws i` is the draw tuple of day `i`. -/
def seasonalDailySeries (start : Date) (count : ℕ) (ws : ℕ → Draw) :
    List DailyRecord :=
  (List.range count).map (fun i => mkDailyRecord start.year (addDays start i) (ws i))

/-- The only domain error of the spec's error taxonomy (§7). -/
inductive GenError where
  | invalidArgument
deriving DecidableEq, Repr

/-- Modelled from the spec: validated daily-series entry point — a negative
day count fails with InvalidArgument instead of producing an empty or
negative-length series (§4.1, §7); absent from `campus_dashboard.py`. -/
def seasonalDailySeriesChecked (start : Date) (count : ℤ) (ws : ℕ → Draw) :
    Except GenError (List DailyRecord) :=
  if count < 0 then .error .invalidArgument
  else .ok (seasonalDailySeries start count.toNat ws)

/-- Modelled from the spec: validated hourly-profile entry point — an empty
building catalog fails with InvalidArgument (§4.2, §7); absent from
`campus_dashboard.py`, whose catalog is hard-coded. -/
noncomputable def generate_campus_data_hourly_checked (cat : List Building)
    (capacity : ℝ) (sj : ℕ → ℝ) (jit : ℕ → ℕ → ℝ) :
    Except GenError (List HourlyRecord) :=
  if cat.isEmpty then .error .invalidArgument
  else .ok (generate_campus_data_hourly cat capacity sj jit)

/-- A fixed draw tuple, used to instantiate witnesses. -/
def draw0 : Draw := ⟨1/2, 1/2, 1/2, 1/2, 1/2, 1/2⟩

/-- A constant draw stream, used to instantiate witnesses. -/
def constDraw : ℕ → Draw := fun _ => draw0

/-! ### Helper lemmas -/

theorem addDays_add (d : Date) (m n : ℕ) :
    addDays d (m + n) = addDays (addDays d m) n := by
  induction n with
  | zero => rfl
  | succ n ih => rw [← Nat.add_assoc]; simp [addDays, ih]

theorem addDays_chunk (d e : Date) (n : ℕ) (h : addDays d 200 = e) :
    addDays d (200 + n) = addDays e n := by
  rw [addDays_add, h]

set_option maxRecDepth 4000 in
/-- 3649 calendar days after 2014-01-01 is 2023-12-29 (the span crosses the
leap years 2016 and 2020). -/
theorem addDays_20140101_3649 : addDays ⟨2014, 1, 1⟩ 3649 = ⟨2023, 12, 29⟩ :=
  calc addDays ⟨2014, 1, 1⟩ 3649
      = addDays ⟨2014, 7, 20⟩ 3449 := addDays_chunk _ _ 3449 (by decide)
    _ = addDays ⟨2015, 2, 5⟩ 3249 := addDays_chunk _ _ 3249 (by decide)
    _ = addDays ⟨2015, 8, 24⟩ 3049 := addDays_chunk _ _ 3049 (by decide)
    _ = addDays ⟨2016, 3, 11⟩ 2849 := addDays_chunk _ _ 2849 (by decide)
    _ = addDays ⟨2016, 9, 27⟩ 2649 := addDays_chunk _ _ 2649 (by decide)
    _ = addDays ⟨2017, 4, 15⟩ 2449 := addDays_chunk _ _ 2449 (by decide)
    _ = addDays ⟨2017, 11, 1⟩ 2249 := addDays_chunk _ _ 2249 (by decide)
    _ = addDays ⟨2018, 5, 20⟩ 2049 := addDays_chunk _ _ 2049 (by decide)
    _ = addDays ⟨2018, 12, 6⟩ 1849 := addDays_chunk _ _ 1849 (by decide)
    _ = addDays ⟨2019, 6, 24⟩ 1649 := addDays_chunk _ _ 1649 (by decide)
    _ = addDays ⟨2020, 1, 10⟩ 1449 := addDays_chunk _ _ 1449 (by decide)
    _ = addDays ⟨2020, 7, 28⟩ 1249 := addDays_chunk _ _ 1249 (by decide)
    _ = addDays ⟨2021, 2, 13⟩ 1049 := addDays_chunk _ _ 1049 (by decide)
    _ = addDays ⟨2021, 9, 1⟩ 849 := addDays_chunk _ _ 849 (by decide)
    _ = addDays ⟨2022, 3, 20⟩ 649 := addDays_chunk _ _ 649 (by decide)
    _ = addDays ⟨2022, 10, 6⟩ 449 := addDays_chunk _ _ 449 (by decide)
    _ = addDays ⟨2023, 4, 24⟩ 249 := addDays_chunk _ _ 249 (by decide)
    _ = addDays ⟨2023, 11, 10⟩ 49 := addDays_chunk _ _ 49 (by decide)
    _ = ⟨2023, 12, 29⟩ := by decide

theorem seasonalDailySeries_length (start : Date) (count : ℕ) (ws : ℕ → Draw) :
    (seasonalDailySeries start count ws).length = count := by
  simp [seasonalDailySeries]

theorem seasonalDailySeries_map_date (start : Date) (count : ℕ) (ws : ℕ → Draw) :
    (seasonalDailySeries start count ws).map DailyRecord.date
      = (List.range count).map (addDays start) := by
  simp only [seasonalDailySeries, List.map_map]
  rfl

theorem range_succ_map_head {α : Type} (f : ℕ → α) (n : ℕ) :
    ((List.range (n + 1)).map f).head? = some (f 0) := by
  rw [List.range_succ_eq_map]
  simp

theorem range_succ_map_getLast {α : Type} (f : ℕ → α) (n : ℕ) :
    ((List.range (n + 1)).map f).getLast? = some (f n) := by
  rw [List.range_succ, List.map_append]
  simp

theorem seasonalDailySeries_mem (start : Date) (count : ℕ) (ws : ℕ → Draw)
    (r : DailyRecord) (hr : r ∈ seasonalDailySeries start count ws) :
    ∃ i, r = mkDailyRecord start.year (addDays start i) (ws i) := by
  simp only [seasonalDailySeries, List.mem_map, List.mem_range] at hr
  obtain ⟨i, _, hi⟩ := hr
  exact ⟨i, hi.symm⟩

theorem foldl_add_snd (l : List (String × ℝ)) (a : ℝ) :
    l.foldl (fun acc p => acc + p.2) a = a + (l.map Prod.snd).sum := by
  induction l generalizing a with
  | nil => simp
  | cons x xs ih => simp [ih, add_assoc]

/-! ### Claim theorems -/

/-- C1: in every one of the 24 hourly records of `generate_campus_data`,
`total_demand_kw` is exactly the sum of the per-building demand fields, and
`grid_import_kw` is exactly `max 0 (total_demand_kw - solar_kw)`, hence
never negative. -/
theorem hourly_total_and_grid_import_invariant (sj : ℕ → ℝ) (jit : ℕ → ℕ → ℝ)
    (r : HourlyRecord)
    (hr : r ∈ generate_campus_data_hourly buildings 2500 sj jit) :
    r.total_demand_kw = (r.perBuilding.map Prod.snd).sum ∧
    r.grid_import_kw = max 0 (r.total_demand_kw - r.solar_kw) ∧
    0 ≤ r.grid_import_kw := by
  simp only [generate_campus_data_hourly, List.mem_map, List.mem_range] at hr
  obtain ⟨h, -, rfl⟩ := hr
  refine ⟨?_, rfl, le_max_left 0 _⟩
  show (perBuildingDemands buildings h (jit h)).foldl (fun acc p => acc + p.2) 0
      = ((perBuildingDemands buildings h (jit h)).map Prod.snd).sum
  rw [foldl_add_snd, zero_add]

/-- C1 witness: the invariant instantiated at the hour-0 record. -/
theorem hourly_total_and_grid_import_invariant_witness :
    0 ≤ (genHourRecord buildings 2500 0 1 (fun _ => 1)).grid_import_kw :=
  (hourly_total_and_grid_import_invariant (fun _ => 1) (fun _ _ => 1)
    (genHourRecord buildings 2500 0 1 (fun _ => 1))
    (List.mem_map.mpr ⟨0, by simp, rfl⟩)).2.2

/-- C5: the `aqi_category` of a sensor snapshot is the deterministic step
function of the sampled `pm25`: Good below 50, Moderate in `[50, 100)`,
else Poor; in particular 120 → Poor, 60 → Moderate, 30 → Good. -/
theorem aqi_category_step (pm25 pm10 co2 : ℚ) :
    ((pm25 < 50 →
        (simulate_sensor_data_air_quality pm25 pm10 co2).aqi_category = "Good") ∧
     (50 ≤ pm25 → pm25 < 100 →
        (simulate_sensor_data_air_quality pm25 pm10 co2).aqi_category = "Moderate") ∧
     (100 ≤ pm25 →
        (simulate_sensor_data_air_quality pm25 pm10 co2).aqi_category = "Poor")) ∧
    (simulate_sensor_data_air_quality 120 180 500).aqi_category = "Poor" ∧
    (simulate_sensor_data_air_quality 60 90 500).aqi_category = "Moderate" ∧
    (simulate_sensor_data_air_quality 30 45 500).aqi_category = "Good" := by
  refine ⟨⟨?_, ?_, ?_⟩, ?_, ?_, ?_⟩
  · intro h
    simp [simulate_sensor_data_air_quality, aqiCategory, if_pos h]
  · intro h1 h2
    simp [simulate_sensor_data_air_quality, aqiCategory, if_neg (not_lt.mpr h1), if_pos h2]
  · intro h
    simp [simulate_sensor_data_air_quality, aqiCategory,
      if_neg (not_lt.mpr (by linarith : (50 : ℚ) ≤ pm25)), if_neg (not_lt.mpr h)]
  · norm_num [simulate_sensor_data_air_quality, aqiCategory]
  · norm_num [simulate_sensor_data_air_quality, aqiCategory]
  · norm_num [simulate_sensor_data_air_quality, aqiCategory]

/-- C5 witness: the step function applied at `pm25 = 30`. -/
theorem aqi_category_step_witness :
    (simulate_sensor_data_air_quality 30 45 500).aqi_category = "Good" :=
  (aqi_category_step 30 45 500).1.1 (by norm_num)

/-- C7 counterexample: hour 18 does satisfy both the daytime and the evening
conditions, but demand at hour 18 is NOT double-counted — the `if/elif`
chain applies only the daytime multiplier `0.8`, not the sum of the two
multipliers and not the evening `peak_factor` (shown here at
`peak_factor = 1.3`). -/
theorem hour18_not_double_counted :
    daytimeCond 18 = true ∧ eveningCond 18 = true ∧
    demandMult 18 (13/10) = 8/10 ∧
    demandMult 18 (13/10) ≠ 8/10 + 13/10 ∧
    demandMult 18 (13/10) ≠ 13/10 := by
  refine ⟨by decide, by decide, ?_, ?_, ?_⟩ <;>
    norm_num [demandMult]

/-- C7 (amended): hour 18 satisfies both the daytime condition `8 ≤ h ≤ 18`
and the evening condition `18 ≤ h ≤ 23`, but the `if/elif` chain gives the
daytime branch precedence, so every building's demand at hour 18 uses the
daytime multiplier `base * 0.8` and the `peak_factor` is never applied
there. -/
theorem hour18_overlap_daytime_precedence (pf : ℚ) (b : Building) (j : ℝ) :
    daytimeCond 18 = true ∧ eveningCond 18 = true ∧
    demandMult 18 pf = 8/10 ∧
    buildingDemand b 18 j = ((b.base_energy * (8/10) : ℚ) : ℝ) * j := by
  refine ⟨by decide, by decide, ?_, ?_⟩
  · norm_num [demandMult]
  · norm_num [buildingDemand, demandMult]

/-- C8: for every hour of the generated day, `solar_kw` is exactly 0
outside `[6, 18]`, and non-negative inside `[6, 18]` whenever the solar
jitter draw lies in `[0.9, 1.1]`, because the sine argument stays in
`[0, π]`. -/
theorem solar_kw_gating_and_nonneg (h : ℕ) (hh : h ≤ 23) (sj : ℝ) (jit : ℕ → ℝ) :
    ((h < 6 ∨ 18 < h) → (genHourRecord buildings 2500 h sj jit).solar_kw = 0) ∧
    (6 ≤ h → h ≤ 18 → 9/10 ≤ sj → sj ≤ 11/10 →
      0 ≤ (genHourRecord buildings 2500 h sj jit).solar_kw) := by
  have hsol : (genHourRecord buildings 2500 h sj jit).solar_kw = solarKW 2500 h sj := rfl
  constructor
  · intro hout
    rw [hsol, solarKW, if_neg]
    rcases hout with hout | hout <;> omega
  · intro h6 h18 hj1 _
    rw [hsol, solarKW, if_pos ⟨h6, h18⟩]
    have hc6 : (6 : ℝ) ≤ (h : ℝ) := by exact_mod_cast h6
    have hc18 : (h : ℝ) ≤ 18 := by exact_mod_cast h18
    have harg0 : 0 ≤ ((h : ℝ) - 6) / 12 * Real.pi :=
      mul_nonneg (by linarith) Real.pi_pos.le
    have hargpi : ((h : ℝ) - 6) / 12 * Real.pi ≤ Real.pi := by
      nlinarith [Real.pi_pos]
    have hsin := Real.sin_nonneg_of_nonneg_of_le_pi harg0 hargpi
    have hj0 : (0 : ℝ) ≤ sj := by linarith
    exact mul_nonneg (mul_nonneg (by norm_num) hsin) hj0

/-- C8 witness: `solar_kw` vanishes at hour 3 and is non-negative at noon
with unit jitter. -/
theorem solar_kw_gating_and_nonneg_witness :
    (genHourRecord buildings 2500 3 1 (fun _ => 1)).solar_kw = 0 ∧
    0 ≤ (genHourRecord buildings 2500 12 1 (fun _ => 1)).solar_kw :=
  ⟨(solar_kw_gating_and_nonneg 3 (by norm_num) 1 (fun _ => 1)).1
      (Or.inl (by norm_num)),
   (solar_kw_gating_and_nonneg 12 (by norm_num) 1 (fun _ => 1)).2
      (by norm_num) (by norm_num) (by norm_num) (by norm_num)⟩

/-- C10: every hourly record's `battery_soc` lies in `[20, 80]`: for hours
`≤ 18` it is `50 + 30 * sin((h - 6) / 12 * π)` (sine bounded by `[-1, 1]`),
and for hours 19-23 it is `max 20 (80 - (h - 18) * 10)`. -/
theorem battery_soc_in_range (h : ℕ) (hh : h ≤ 23) (sj : ℝ) (jit : ℕ → ℝ) :
    (genHourRecord buildings 2500 h sj jit).battery_soc = batterySoc h ∧
    (h ≤ 18 → batterySoc h = 50 + 30 * Real.sin (((h : ℝ) - 6) / 12 * Real.pi)) ∧
    (18 < h → batterySoc h = max 20 (80 - ((h : ℝ) - 18) * 10)) ∧
    20 ≤ (genHourRecord buildings 2500 h sj jit).battery_soc ∧
    (genHourRecord buildings 2500 h sj jit).battery_soc ≤ 80 := by
  have hb : (genHourRecord buildings 2500 h sj jit).battery_soc = batterySoc h := rfl
  rw [hb]
  by_cases hc : h ≤ 18
  · have he : batterySoc h = 50 + 30 * Real.sin (((h : ℝ) - 6) / 12 * Real.pi) := by
      rw [batterySoc, if_pos hc]
    refine ⟨rfl, fun _ => he, fun hlt => absurd hc (by omega), ?_, ?_⟩
    · rw [he]
      linarith [Real.neg_one_le_sin (((h : ℝ) - 6) / 12 * Real.pi)]
    · rw [he]
      linarith [Real.sin_le_one (((h : ℝ) - 6) / 12 * Real.pi)]
  · have he : batterySoc h = max 20 (80 - ((h : ℝ) - 18) * 10) := by
      rw [batterySoc, if_neg hc]
    have h19 : (19 : ℝ) ≤ (h : ℝ) := by exact_mod_cast (by omega : 19 ≤ h)
    refine ⟨rfl, fun hle => absurd hle hc, fun _ => he, ?_, ?_⟩
    · rw [he]
      exact le_max_left 20 _
    · rw [he]
      exact max_le (by norm_num) (by linarith)

/-- C10 witness: the bounds at hour 21. -/
theorem battery_soc_in_range_witness :
    20 ≤ (genHourRecord buildings 2500 21 1 (fun _ => 1)).battery_soc ∧
    (genHourRecord buildings 2500 21 1 (fun _ => 1)).battery_soc ≤ 80 :=
  ⟨(battery_soc_in_range 21 (by norm_num) 1 (fun _ => 1)).2.2.2.1,
   (battery_soc_in_range 21 (by norm_num) 1 (fun _ => 1)).2.2.2.2⟩

theorem seasonalDailySeries_map_season (start : Date) (count : ℕ) (ws : ℕ → Draw) :
    (seasonalDailySeries start count ws).map DailyRecord.season
      = (List.range count).map (fun i => seasonOfMonth (addDays start i).month) := by
  simp only [seasonalDailySeries, List.map_map]
  rfl

theorem seasonOfMonth_partition (m : ℕ) :
    ((m = 12 ∨ m = 1 ∨ m = 2) → seasonOfMonth m = Season.Winter) ∧
    (3 ≤ m ∧ m ≤ 5 → seasonOfMonth m = Season.Summer) ∧
    (6 ≤ m ∧ m ≤ 9 → seasonOfMonth m = Season.Monsoon) ∧
    (¬(m = 12 ∨ m = 1 ∨ m = 2) → ¬(3 ≤ m ∧ m ≤ 5) → ¬(6 ≤ m ∧ m ≤ 9) →
      seasonOfMonth m = Season.Autumn) := by
  unfold seasonOfMonth
  refine ⟨?_, ?_, ?_, ?_⟩ <;> intros <;> split_ifs <;>
    first | rfl | (exfalso; omega)

theorem mkDailyRecord_mem_one (start : Date) :
    mkDailyRecord start.year start draw0 ∈ seasonalDailySeries start 1 constDraw := by
  simp only [seasonalDailySeries, List.range_succ, List.range_zero, List.nil_append,
    List.map_cons, List.map_nil, List.mem_singleton]
  rfl

/-- C2 counterexample: the 3650-record series starting 2014-01-01 has its
last record dated 2023-12-29, not 2023-12-27 as the claim states (the span
contains the two leap days of 2016 and 2020, so 3649 days after 2014-01-01
is 2023-12-29). -/
theorem daily_series_2014_last_date_cex :
    ((seasonalDailySeries ⟨2014, 1, 1⟩ 3650 constDraw).map DailyRecord.date).getLast?
      = some ⟨2023, 12, 29⟩ ∧
    some (⟨2023, 12, 29⟩ : Date) ≠ some (⟨2023, 12, 27⟩ : Date) := by
  constructor
  · rw [seasonalDailySeries_map_date]
    exact (range_succ_map_getLast _ 3649).trans (by rw [addDays_20140101_3649])
  · decide

/-- C2 (amended): generating the 10-year daily series starting 2014-01-01
produces exactly 3650 records, one per consecutive calendar day in order,
the first dated 2014-01-01 with season Winter and the last dated
2023-12-29. -/
theorem daily_series_2014_example (ws : ℕ → Draw) :
    (seasonalDailySeries ⟨2014, 1, 1⟩ 3650 ws).length = 3650 ∧
    (seasonalDailySeries ⟨2014, 1, 1⟩ 3650 ws).map DailyRecord.date
      = (List.range 3650).map (addDays ⟨2014, 1, 1⟩) ∧
    ((seasonalDailySeries ⟨2014, 1, 1⟩ 3650 ws).map DailyRecord.date).head?
      = some ⟨2014, 1, 1⟩ ∧
    ((seasonalDailySeries ⟨2014, 1, 1⟩ 3650 ws).map DailyRecord.season).head?
      = some Season.Winter ∧
    ((seasonalDailySeries ⟨2014, 1, 1⟩ 3650 ws).map DailyRecord.date).getLast?
      = some ⟨2023, 12, 29⟩ := by
  refine ⟨seasonalDailySeries_length _ _ _, seasonalDailySeries_map_date _ _ _,
    ?_, ?_, ?_⟩
  · rw [seasonalDailySeries_map_date]
    exact range_succ_map_head _ 3649
  · rw [seasonalDailySeries_map_season]
    exact (range_succ_map_head _ 3649).trans (by decide)
  · rw [seasonalDailySeries_map_date]
    exact (range_succ_map_getLast _ 3649).trans (by rw [addDays_20140101_3649])

/-- C3: every generated daily record's `season` is the pure total function
`seasonOfMonth` of its `month`, following the fixed partition
{12,1,2}→Winter, {3,4,5}→Summer, {6,7,8,9}→Monsoon, else→Autumn. -/
theorem daily_season_partition (start : Date) (count : ℕ) (ws : ℕ → Draw)
    (r : DailyRecord) (hr : r ∈ seasonalDailySeries start count ws) :
    r.season = seasonOfMonth r.month ∧
    ((r.month = 12 ∨ r.month = 1 ∨ r.month = 2) → r.season = Season.Winter) ∧
    (3 ≤ r.month ∧ r.month ≤ 5 → r.season = Season.Summer) ∧
    (6 ≤ r.month ∧ r.month ≤ 9 → r.season = Season.Monsoon) ∧
    (¬(r.month = 12 ∨ r.month = 1 ∨ r.month = 2) → ¬(3 ≤ r.month ∧ r.month ≤ 5) →
      ¬(6 ≤ r.month ∧ r.month ≤ 9) → r.season = Season.Autumn) := by
  obtain ⟨i, rfl⟩ := seasonalDailySeries_mem _ _ _ _ hr
  exact ⟨rfl, (seasonOfMonth_partition _).1, (seasonOfMonth_partition _).2.1,
    (seasonOfMonth_partition _).2.2.1, (seasonOfMonth_partition _).2.2.2⟩

/-- C3 witness: the partition at the single record of a one-day series. -/
theorem daily_season_partition_witness :
    (mkDailyRecord 2014 ⟨2014, 1, 1⟩ draw0).season
      = seasonOfMonth (mkDailyRecord 2014 ⟨2014, 1, 1⟩ draw0).month :=
  (daily_season_partition ⟨2014, 1, 1⟩ 1 constDraw _
    (mkDailyRecord_mem_one ⟨2014, 1, 1⟩)).1

/-- C4: in every generated daily record, `solar_energy_kwh` is
`sunshine_hours * c * uniform(0.8, 1.3)`: it always lies between 0.8 and
1.3 times the linear relation `c * sunshine_hours`, rather than being
sampled independently. -/
theorem daily_solar_from_sunshine (start : Date) (count : ℕ) (ws : ℕ → Draw)
    (hws : ∀ i, (ws i).Valid) (r : DailyRecord)
    (hr : r ∈ seasonalDailySeries start count ws) :
    0 ≤ r.sunshine_hours ∧
    8/10 * (solarPerSunHour * r.sunshine_hours) ≤ r.solar_energy_kwh ∧
    r.solar_energy_kwh ≤ 13/10 * (solarPerSunHour * r.sunshine_hours) ∧
    ∃ j, 8/10 ≤ j ∧ j ≤ 13/10 ∧
      r.solar_energy_kwh = r.sunshine_hours * solarPerSunHour * j := by
  obtain ⟨i, rfl⟩ := seasonalDailySeries_mem _ _ _ _ hr
  obtain ⟨-, -, -, -, -, -, -, -, -, -, hj0, hj1⟩ := hws i
  set w := ws i
  set d := addDays start i
  have hsun : (mkDailyRecord start.year d w).sunshine_hours
      = clampQ 0 11 ((seasonBase (seasonOfMonth d.month)).sun * uniform (7/10) (13/10) w.s) :=
    rfl
  have hsol : (mkDailyRecord start.year d w).solar_energy_kwh
      = (mkDailyRecord start.year d w).sunshine_hours * solarPerSunHour
          * uniform (8/10) (13/10) w.j :=
    rfl
  have hs0 : 0 ≤ (mkDailyRecord start.year d w).sunshine_hours := by
    rw [hsun]
    exact le_max_left 0 _
  have hu1 : 8/10 ≤ uniform (8/10) (13/10) w.j := by
    simp only [uniform]
    nlinarith
  have hu2 : uniform (8/10) (13/10) w.j ≤ 13/10 := by
    simp only [uniform]
    nlinarith
  refine ⟨hs0, ?_, ?_, uniform (8/10) (13/10) w.j, hu1, hu2, hsol⟩
  · rw [hsol]
    have hcs : 0 ≤ solarPerSunHour * (mkDailyRecord start.year d w).sunshine_hours := by
      have : (0 : ℚ) ≤ solarPerSunHour := by norm_num [solarPerSunHour]
      exact mul_nonneg this hs0
    nlinarith
  · rw [hsol]
    have hcs : 0 ≤ solarPerSunHour * (mkDailyRecord start.year d w).sunshine_hours := by
      have : (0 : ℚ) ≤ solarPerSunHour := by norm_num [solarPerSunHour]
      exact mul_nonneg this hs0
    nlinarith

/-- C4 witness: the jitter decomposition at the single record of a one-day
series with all draws 1/2. -/
theorem daily_solar_from_sunshine_witness :
    ∃ j, 8/10 ≤ j ∧ j ≤ 13/10 ∧
      (mkDailyRecord 2014 ⟨2014, 1, 1⟩ draw0).solar_energy_kwh
        = (mkDailyRecord 2014 ⟨2014, 1, 1⟩ draw0).sunshine_hours * solarPerSunHour * j :=
  (daily_solar_from_sunshine ⟨2014, 1, 1⟩ 1 constDraw
    (fun _ => by norm_num [constDraw, draw0, Draw.Valid]) _
    (mkDailyRecord_mem_one ⟨2014, 1, 1⟩)).2.2.2

/-- C6: every generated daily record's temperature is the seasonal sample
scaled by the linear multi-year drift factor `1 + (year - start_year) * k`
with `k = 0.02`, and its pm25 value is built from the seasonal AQI base
shifted by an additive per-year drift. -/
theorem daily_drift_factors (start : Date) (count : ℕ) (ws : ℕ → Draw)
    (r : DailyRecord) (hr : r ∈ seasonalDailySeries start count ws) :
    tempDriftK = 2/100 ∧
    ∃ w : Draw,
      r.temperature_c = ((seasonBase r.season).temp + uniform (-3) 3 w.t)
        * (1 + ((r.year : ℚ) - (start.year : ℚ)) * tempDriftK) ∧
      r.air_quality_pm25 = clampQ 25 250
        (((seasonBase r.season).aqi + ((r.year : ℚ) - (start.year : ℚ)) * aqiDriftPerYear)
          * uniform (7/10) (13/10) w.a) := by
  obtain ⟨i, rfl⟩ := seasonalDailySeries_mem _ _ _ _ hr
  exact ⟨rfl, ws i, rfl, rfl⟩

/-- C6 witness: the drift decomposition at the single record of a one-day
series. -/
theorem daily_drift_factors_witness :
    ∃ w : Draw,
      (mkDailyRecord 2014 ⟨2014, 1, 1⟩ draw0).temperature_c
        = ((seasonBase (mkDailyRecord 2014 ⟨2014, 1, 1⟩ draw0).season).temp
            + uniform (-3) 3 w.t)
          * (1 + (((mkDailyRecord 2014 ⟨2014, 1, 1⟩ draw0).year : ℚ)
              - ((2014 : ℕ) : ℚ)) * tempDriftK) ∧
      (mkDailyRecord 2014 ⟨2014, 1, 1⟩ draw0).air_quality_pm25 = clampQ 25 250
        (((seasonBase (mkDailyRecord 2014 ⟨2014, 1, 1⟩ draw0).season).aqi
            + (((mkDailyRecord 2014 ⟨2014, 1, 1⟩ draw0).year : ℚ)
              - ((2014 : ℕ) : ℚ)) * aqiDriftPerYear)
          * uniform (7/10) (13/10) w.a) :=
  (daily_drift_factors ⟨2014, 1, 1⟩ 1 constDraw _
    (mkDailyRecord_mem_one ⟨2014, 1, 1⟩)).2

/-- C9: the validated entry points reject invalid parameters with the typed
InvalidArgument error instead of returning a table: a negative day count
for the daily series, and an empty building catalog for the hourly
profile; valid parameters return the generated table. -/
theorem invalid_args_rejected :
    (∀ (start : Date) (count : ℤ) (ws : ℕ → Draw), count < 0 →
      seasonalDailySeriesChecked start count ws = .error .invalidArgument) ∧
    (∀ (start : Date) (count : ℤ) (ws : ℕ → Draw), 0 ≤ count →
      seasonalDailySeriesChecked start count ws
        = .ok (seasonalDailySeries start count.toNat ws)) ∧
    (∀ (capacity : ℝ) (sj : ℕ → ℝ) (jit : ℕ → ℕ → ℝ),
      generate_campus_data_hourly_checked [] capacity sj jit
        = .error .invalidArgument) ∧
    (∀ (cat : List Building) (capacity : ℝ) (sj : ℕ → ℝ) (jit : ℕ → ℕ → ℝ),
      cat ≠ [] →
      generate_campus_data_hourly_checked cat capacity sj jit
        = .ok (generate_campus_data_hourly cat capacity sj jit)) := by
  refine ⟨?_, ?_, ?_, ?_⟩
  · intro start count ws hneg
    simp [seasonalDailySeriesChecked, hneg]
  · intro start count ws hpos
    simp [seasonalDailySeriesChecked, not_lt.mpr hpos]
  · intro capacity sj jit
    simp [generate_campus_data_hourly_checked]
  · intro cat capacity sj jit hne
    simp [generate_campus_data_hourly_checked, hne]

/-- C9 witness: day count `-1` and the empty catalog are both rejected. -/
theorem invalid_args_rejected_witness :
    seasonalDailySeriesChecked ⟨2014, 1, 1⟩ (-1) constDraw
      = .error .invalidArgument ∧
    generate_campus_data_hourly_checked [] 2500 (fun _ => 1) (fun _ _ => 1)
      = .error .invalidArgument :=
  ⟨invalid_args_rejected.1 ⟨2014, 1, 1⟩ (-1) constDraw (by norm_num),
   invalid_args_rejected.2.2.1 2500 (fun _ => 1) (fun _ _ => 1)⟩

end Campus
